import Mathlib

/-!
A verification development for the payment/banking reconciliation core of a
fintech backend.  The Python source is shallowly embedded: each service
function becomes a pure Lean function over explicit database-state values,
adapter calls become explicit `Except` arguments, and the Python exception
flow becomes `Except`-valued results.  Amounts are modelled as rationals,
row identifiers as naturals, statuses as inductive enumerations.
-/

namespace Fintech

/-- Internal payment status enum (app/services/payment_service.py, PaymentStatus). -/
inductive PaymentStatus where
  | pending
  | processing
  | completed
  | failed
  | refunded
  | canceled
  deriving DecidableEq, Repr

/-- Payment provider enum (app/services/payment_service.py, PaymentProvider). -/
inductive ProviderTag where
  | stripe
  | paypal
  | plaid
  | ach
  deriving DecidableEq, Repr

/-- Payment method (instrument type) enum (app/services/payment_service.py, PaymentMethod). -/
inductive MethodType where
  | creditCard
  | debitCard
  | bankTransfer
  | digitalWallet
  | other
  deriving DecidableEq, Repr

/-- The lowercase string value of a status, as carried by the str-mixin enum. -/
def statusText : PaymentStatus → String
  | .pending => "pending"
  | .processing => "processing"
  | .completed => "completed"
  | .failed => "failed"
  | .refunded => "refunded"
  | .canceled => "canceled"

/-- The Python-side exceptions that appear in the embedded code paths. -/
inductive PyErr where
  | paymentError (msg : String)
  | providerError (provider : String) (msg : String) (code : Option String)
  | nameError (missing : String)
  | attributeError (obj : String) (attr : String)
  | valueError (msg : String)
  deriving DecidableEq, Repr

/-- str(e) for the embedded exceptions (quoting of the originals elided). -/
def pyErrStr : PyErr → String
  | .paymentError m => m
  | .providerError p m _ => p ++ " error: " ++ m
  | .nameError n => "name " ++ n ++ " is not defined"
  | .attributeError o a => "type object " ++ o ++ " has no attribute " ++ a
  | .valueError m => m

/-- isinstance(e, PaymentError): PaymentProviderError subclasses PaymentError
(payment_service.py lines 44-54), so both match an `except PaymentError`
clause; NameError, AttributeError and ValueError do not. -/
def isPaymentError : PyErr → Bool
  | .paymentError _ => true
  | .providerError _ _ _ => true
  | _ => false

/-- getattr(e, "code", None): only PaymentProviderError carries a code. -/
def pyErrCode : PyErr → Option String
  | .providerError _ _ c => c
  | _ => none

/-! ## Provider status mapping tables

Each adapter maps the remote rail's native status vocabulary onto the
internal enum with a Python `dict.get(status, PaymentStatus.FAILED)`:
an association-list lookup with default `failed`.
-/

/-- stripe_provider.py `_map_stripe_status`: the literal mapping dict. -/
def stripeStatusMap : List (String × PaymentStatus) :=
  [("requires_payment_method", .pending),
   ("requires_confirmation", .pending),
   ("requires_action", .pending),
   ("processing", .processing),
   ("requires_capture", .processing),
   ("succeeded", .completed),
   ("canceled", .canceled)]

/-- paypal_provider.py `_map_paypal_status`: the literal mapping dict. -/
def paypalStatusMap : List (String × PaymentStatus) :=
  [("CREATED", .pending),
   ("SAVED", .pending),
   ("APPROVED", .processing),
   ("VOIDED", .canceled),
   ("COMPLETED", .completed),
   ("PAYER_ACTION_REQUIRED", .pending)]

/-- plaid_ach_provider.py `_map_plaid_status`: the literal mapping dict. -/
def plaidStatusMap : List (String × PaymentStatus) :=
  [("PAYMENT_STATUS_INPUT_NEEDED", .pending),
   ("PAYMENT_STATUS_PROCESSING", .processing),
   ("PAYMENT_STATUS_INITIATED", .processing),
   ("PAYMENT_STATUS_COMPLETED", .completed),
   ("PAYMENT_STATUS_EXECUTED", .completed),
   ("PAYMENT_STATUS_REJECTED", .failed),
   ("PAYMENT_STATUS_CANCELLED", .canceled),
   ("PAYMENT_STATUS_FAILED", .failed)]

/-- `status_map.get(s, PaymentStatus.FAILED)`: lookup with default `failed`. -/
def lookupStatus (m : List (String × PaymentStatus)) (s : String) : PaymentStatus :=
  (m.lookup s).getD .failed

/-- `_map_stripe_status` (stripe_provider.py lines 148-159). -/
def mapStripeStatus (s : String) : PaymentStatus := lookupStatus stripeStatusMap s

/-- `_map_paypal_status` (paypal_provider.py lines 238-248). -/
def mapPaypalStatus (s : String) : PaymentStatus := lookupStatus paypalStatusMap s

/-- `_map_plaid_status` (plaid_ach_provider.py lines 189-201). -/
def mapPlaidStatus (s : String) : PaymentStatus := lookupStatus plaidStatusMap s

/-- The native statuses listed in an adapter's mapping table. -/
def mapKeys (m : List (String × PaymentStatus)) : List String := m.map Prod.fst

/-! ## Payment / Refund records and the transaction reconciliation service

Database rows become structure values, the session becomes an explicit
state value, and the provider adapter call becomes an `Except` argument
supplied by the caller (the adapter result for the one outbound call a
reconciliation operation may make).  Timestamp columns are omitted: no
embedded operation branches on them, and every code path that the claims
touch either leaves them unmodified or merely refreshes them.
-/

/-- A provider-neutral adapter response (payment_service.py, PaymentResponse).
The raw provider payload is carried as an opaque string. -/
structure ProviderResp where
  paymentId : String
  status : PaymentStatus
  amount : ℚ
  currency : String
  raw : String
  deriving DecidableEq, Repr

/-- A transport or remote-API failure surfaced by an adapter, before wrapping. -/
structure AdapterErr where
  message : String
  code : Option String
  deriving DecidableEq, Repr

/-- A Payment row (app/db/models/payment.py, Payment). -/
structure PaymentRec where
  id : Nat
  externalId : String
  userId : Nat
  amount : ℚ
  currency : String
  status : PaymentStatus
  provider : ProviderTag
  providerResponse : Option String
  errorMessage : Option String
  errorCode : Option String
  deriving DecidableEq, Repr

/-- A Refund row (app/db/models/payment.py, Refund). -/
structure RefundRec where
  id : Nat
  paymentId : Nat
  externalId : String
  amount : ℚ
  currency : String
  status : PaymentStatus
  reason : Option String
  deriving DecidableEq, Repr

/-- The request body for creating a refund (app/schemas/payment.py, RefundCreate):
an optional amount (None means full refund), optional reason, and the parent
payment id.  The schema declares no validator comparing the amount to anything. -/
structure RefundCreateData where
  paymentId : Nat
  amount : Option ℚ
  reason : Option String
  deriving DecidableEq, Repr

/-- The persisted state the payment reconciliation service owns. -/
structure PayDb where
  payments : List PaymentRec
  refunds : List RefundRec
  deriving DecidableEq, Repr

/-- `get_payment_by_id` (payment_transaction_service.py line 75). -/
def getPaymentById (db : PayDb) (pid : Nat) : Option PaymentRec :=
  db.payments.find? (fun p => p.id == pid)

/-- Replace the row with the given id (the ORM mutates the fetched object;
ids are primary keys, unique by the database schema). -/
def putPayment (db : PayDb) (p : PaymentRec) : PayDb :=
  { db with payments := db.payments.map (fun q => if q.id == p.id then p else q) }

/-- Result of `cancel_payment`: the Python function returns `None` when the
payment does not exist, returns the updated row on success, and raises
otherwise; `adapterCalled` records whether the provider adapter was invoked. -/
structure CancelResult where
  outcome : Except PyErr (Option PaymentRec)
  db : PayDb
  adapterCalled : Bool
  deriving Repr

/-- The message of the guard raise in `cancel_payment` (line 179). -/
def cancelGuardMsg (s : PaymentStatus) : String :=
  "Cannot cancel payment in " ++ statusText s ++ " state"

/-- `cancel_payment` (payment_transaction_service.py lines 170-211).
`adapter` is what the call to `payment_service.cancel_payment(external_id,
provider)` produces: a response, or the Python exception it raises.  The
`except PaymentError` clause (line 201) matches only PaymentError instances:
for those the error fields (str(e), getattr(e, "code", None)) are committed
and the exception re-raised; any other exception — in particular the
NameError a transport failure escapes the providers as — bypasses the
handler and propagates with nothing written. -/
def cancelPayment (adapter : Except PyErr ProviderResp) (db : PayDb)
    (pid : Nat) : CancelResult :=
  match getPaymentById db pid with
  | none => ⟨.ok none, db, false⟩
  | some p =>
    if p.status ≠ .pending ∧ p.status ≠ .processing then
      ⟨.error (.paymentError (cancelGuardMsg p.status)), db, false⟩
    else
      match adapter with
      | .ok resp =>
        let p' := { p with status := .canceled, providerResponse := some resp.raw }
        ⟨.ok (some p'), putPayment db p', true⟩
      | .error e =>
        if isPaymentError e then
          let p' := { p with errorMessage := some (pyErrStr e), errorCode := pyErrCode e }
          ⟨.error e, putPayment db p', true⟩
        else
          ⟨.error e, db, true⟩

/-- Result of `create_refund`: the created Refund row or the re-raised error,
the state after the single commit, and whether the adapter was invoked. -/
structure RefundResult where
  outcome : Except PyErr RefundRec
  db : PayDb
  adapterCalled : Bool
  deriving Repr

/-- The message of the status guard raise in `create_refund` (line 229). -/
def refundGuardMsg (s : PaymentStatus) : String :=
  "Cannot refund payment in " ++ statusText s ++ " state"

/-- `create_refund` (payment_transaction_service.py lines 214-278).
`adapter` is what the call to `payment_service.refund_payment(...)` produces:
a response, or the Python exception it raises; `freshId` stands for the
generated `uuid.uuid4()` of the new Refund row.  On success the refund row
and the parent status flip are committed in one state update, mirroring the
single `db.commit()`.  The `except PaymentError` clause (line 268) matches
only PaymentError instances: for those the error fields are committed and
the exception re-raised; any other exception — in particular the NameError a
transport failure escapes the providers as — bypasses the handler and
propagates with nothing written. -/
def createRefund (adapter : Except PyErr ProviderResp) (db : PayDb)
    (rd : RefundCreateData) (userId : Nat) (freshId : Nat) : RefundResult :=
  match getPaymentById db rd.paymentId with
  | none => ⟨.error (.paymentError "Payment not found"), db, false⟩
  | some p =>
    if p.userId ≠ userId then
      ⟨.error (.paymentError "Payment does not belong to user"), db, false⟩
    else if p.status ≠ .completed then
      ⟨.error (.paymentError (refundGuardMsg p.status)), db, false⟩
    else
      let refundAmount := rd.amount.getD p.amount
      match adapter with
      | .ok resp =>
        let newRefund : RefundRec :=
          ⟨freshId, p.id, resp.paymentId, refundAmount, p.currency, .processing, rd.reason⟩
        let p' := { p with status := .refunded }
        ⟨.ok newRefund,
         { payments := (putPayment db p').payments, refunds := db.refunds ++ [newRefund] },
         true⟩
      | .error e =>
        if isPaymentError e then
          let p' := { p with errorMessage := some (pyErrStr e), errorCode := pyErrCode e }
          ⟨.error e, putPayment db p', true⟩
        else
          ⟨.error e, db, true⟩

/-! ## Error wrapping at the adapter boundary

Every `except` handler of the three provider files builds the wrapped error
as `PaymentProviderError(provider=ProviderEnum.X, message=..., code=...)`.
Evaluating that constructor call first resolves the name `ProviderEnum`
against the module's global namespace.  The names bound in each module are
exactly its imports plus its class definition; none of the three modules
binds `ProviderEnum` (they import `PaymentProvider` under its own name — the
`PaymentProvider as ProviderEnum` alias exists only in
payment_transaction_service.py).  We embed the handler together with this
name-resolution step. -/

/-- Names each provider module imports from app.services.payment_service
(identical import lists in the three files). -/
def paymentServiceImportNames : List String :=
  ["PaymentError", "PaymentMethod", "PaymentProviderBase", "PaymentProviderError",
   "PaymentProvider", "PaymentRequest", "PaymentResponse", "PaymentStatus"]

/-- Global names bound in stripe_provider.py (lines 4-22): stdlib/typing and
SDK imports, the payment_service imports, and the class definition. -/
def stripeModuleNames : List String :=
  ["datetime", "Any", "Dict", "Optional", "stripe", "StripeError"] ++
    paymentServiceImportNames ++ ["StripePaymentProvider"]

/-- Global names bound in paypal_provider.py (lines 4-21). -/
def paypalModuleNames : List String :=
  ["datetime", "Any", "Dict", "Optional", "requests"] ++
    paymentServiceImportNames ++ ["PayPalPaymentProvider"]

/-- Global names bound in plaid_ach_provider.py (lines 4-29). -/
def plaidModuleNames : List String :=
  ["datetime", "Any", "Dict", "Optional", "plaid", "plaid_api",
   "PaymentInitiationPaymentCreateRequest", "PaymentInitiationPaymentGetRequest",
   "Products", "CountryCode", "RecipientBACSNullable", "PaymentAmount",
   "PaymentAmountCurrency"] ++
    paymentServiceImportNames ++ ["PlaidACHPaymentProvider"]

/-- The `except`-handler body shared by all adapter operations: re-raise the
caught transport error as `PaymentProviderError(provider=ProviderEnum.X, ...)`.
If the module does not bind `ProviderEnum`, evaluating the argument raises a
`NameError`, and that is what escapes instead. -/
def wrapAdapterError (moduleNames : List String) (provider : String)
    (e : AdapterErr) : PyErr :=
  if moduleNames.contains "ProviderEnum" then
    .providerError provider e.message e.code
  else
    .nameError "ProviderEnum"

/-- The exception escaping a Stripe adapter operation whose SDK call raised. -/
def stripeEscapingError (e : AdapterErr) : PyErr :=
  wrapAdapterError stripeModuleNames "stripe" e

/-- The exception escaping a PayPal adapter operation whose HTTP call raised. -/
def paypalEscapingError (e : AdapterErr) : PyErr :=
  wrapAdapterError paypalModuleNames "paypal" e

/-- The exception escaping a Plaid adapter operation whose SDK call raised. -/
def plaidEscapingError (e : AdapterErr) : PyErr :=
  wrapAdapterError plaidModuleNames "plaid" e

/-- Does a Python value classify as a ProviderError carrying provider
identity, message and optional code? -/
def isProviderError : PyErr → Bool
  | .providerError _ _ _ => true
  | _ => false

/-! ## Adapter-side cancel behaviour of the wallet and bank rails

PayPal (paypal_provider.py lines 152-166) and Plaid (plaid_ach_provider.py
lines 146-162) have no remote cancel primitive: when the current remote
payment is in a cancellable state they return it unchanged; otherwise they
raise at a site constructing `PaymentProviderError(provider=ProviderEnum.X,
..., code="invalid_state")` — which, the module not binding `ProviderEnum`,
actually raises NameError, as embedded by `wrapAdapterError`. -/

/-- `PayPalPaymentProvider.cancel_payment`: `current` is the re-fetched payment. -/
def paypalCancelPayment (current : ProviderResp) : Except PyErr ProviderResp :=
  if current.status ≠ .pending then
    .error (wrapAdapterError paypalModuleNames "paypal"
      ⟨"Cannot cancel payment in " ++ statusText current.status ++ " state",
       some "invalid_state"⟩)
  else
    .ok current

/-- `PlaidACHPaymentProvider.cancel_payment`: `current` is the re-fetched payment. -/
def plaidCancelPayment (current : ProviderResp) : Except PyErr ProviderResp :=
  if current.status ≠ .pending ∧ current.status ≠ .processing then
    .error (wrapAdapterError plaidModuleNames "plaid"
      ⟨"Cannot cancel payment in " ++ statusText current.status ++ " state",
       some "invalid_state"⟩)
  else
    .ok current

/-! ## Payment methods and default promotion (payment_transaction_service.py) -/

/-- A PaymentMethod row (app/db/models/payment.py, PaymentMethod). -/
structure MethodRec where
  id : Nat
  userId : Nat
  provider : ProviderTag
  mtype : MethodType
  token : String
  lastFour : Option String
  isDefault : Bool
  isActive : Bool
  deriving DecidableEq, Repr

/-- The (owner, provider, type) filter used by both default-clearing queries. -/
def sameTriple (m : MethodRec) (u : Nat) (pr : ProviderTag) (t : MethodType) : Bool :=
  m.userId == u && m.provider == pr && m.mtype == t

/-- One step of the clearing loop: `method.is_default = False` applied to the
rows matched by the query (is_default, owner, provider, type). -/
def clearOne (u : Nat) (pr : ProviderTag) (t : MethodType) (m : MethodRec) : MethodRec :=
  if m.isDefault && sameTriple m u pr t then { m with isDefault := false } else m

/-- The query-then-loop that unsets existing defaults for a triple
(payment_transaction_service.py lines 306-319 and 400-413). -/
def clearDefaults (u : Nat) (pr : ProviderTag) (t : MethodType)
    (db : List MethodRec) : List MethodRec :=
  db.map (clearOne u pr t)

/-- `create_payment_method` (payment_transaction_service.py lines 298-340):
optionally clears prior defaults for the triple, then inserts the new row
(active, with the requested default flag); `freshId` stands for the
generated `uuid.uuid4()`. -/
def createPaymentMethod (db : List MethodRec) (freshId u : Nat)
    (pr : ProviderTag) (t : MethodType) (token : String) (isDef : Bool) :
    List MethodRec :=
  let db1 := if isDef then clearDefaults u pr t db else db
  db1 ++ [⟨freshId, u, pr, t, token, none, isDef, true⟩]

/-- Update the first row matched by a predicate, in place — the ORM mutates
the single object returned by the lookup. -/
def setFirst {α : Type} (p : α → Bool) (f : α → α) : List α → List α
  | [] => []
  | m :: rest => if p m then f m :: rest else m :: setFirst p f rest

/-- Result of `set_default_payment_method`: `None` when the method id is
unknown, the promoted row on success, a raise on foreign ownership. -/
structure SetDefaultResult where
  outcome : Except PyErr (Option MethodRec)
  db : List MethodRec
  deriving Repr

/-- `set_default_payment_method` (payment_transaction_service.py lines
387-423): looks the method up, checks ownership, unsets every default for
the method's (owner, provider, type) triple, then sets the flag on the
looked-up row; all inside the one transaction committed at the end. -/
def setDefaultPaymentMethod (db : List MethodRec) (mid uid : Nat) : SetDefaultResult :=
  match db.find? (fun m => m.id == mid) with
  | none => ⟨.ok none, db⟩
  | some m =>
    if m.userId ≠ uid then
      ⟨.error (.paymentError "Payment method does not belong to user"), db⟩
    else
      let cleared := clearDefaults uid m.provider m.mtype db
      ⟨.ok (some { m with isDefault := true }),
       setFirst (fun q => q.id == mid) (fun q => { q with isDefault := true }) cleared⟩

/-- The operations of claim C9. -/
inductive MethodOp where
  | create (u : Nat) (pr : ProviderTag) (t : MethodType) (token : String) (isDef : Bool)
  | setDef (mid uid : Nat)
  deriving DecidableEq, Repr

/-- Run one operation against (database, fresh-id counter). -/
def applyMethodOp : List MethodRec × Nat → MethodOp → List MethodRec × Nat
  | (db, ctr), .create u pr t token isDef =>
      (createPaymentMethod db ctr u pr t token isDef, ctr + 1)
  | (db, ctr), .setDef mid uid => ((setDefaultPaymentMethod db mid uid).db, ctr)

/-- Run a sequence of operations. -/
def applyMethodOps (ops : List MethodOp) (st : List MethodRec × Nat) :
    List MethodRec × Nat :=
  ops.foldl applyMethodOp st

/-- Number of rows flagged default for an (owner, provider, type) triple. -/
def countDefaults (db : List MethodRec) (u : Nat) (pr : ProviderTag)
    (t : MethodType) : Nat :=
  db.countP (fun m => m.isDefault && sameTriple m u pr t)

/-- The claimed invariant: at most one default per (owner, provider, type). -/
def AtMostOneDefault (db : List MethodRec) : Prop :=
  ∀ u pr t, countDefaults db u pr t ≤ 1

/-! ## Banking link and sync service (banking_service.py, plaid_service.py)

Row ids are naturals drawn from a fresh-id counter (uuid4 in the source);
timestamp columns are again omitted.  The Plaid remote is an environment of
pure functions modelling successful rail calls: `exchange` maps a public
token to (access token, rail item id), `accounts` and `transactions` list
the remote data for an access token, `institutionName` resolves an
institution id. -/

/-- A PlaidItem row (app/db/models/banking.py, PlaidItem). -/
structure ItemRow where
  id : Nat
  userId : Nat
  itemId : String
  accessToken : String
  institutionId : Option String
  institutionName : Option String
  isActive : Bool
  errorCode : Option String
  deriving DecidableEq, Repr

/-- A PlaidAccount row (app/db/models/banking.py, PlaidAccount). -/
structure AcctRow where
  id : Nat
  itemRef : Nat
  accountId : String
  name : Option String
  availableBalance : Option String
  currentBalance : Option String
  isActive : Bool
  deriving DecidableEq, Repr

/-- A PlaidTransaction row (app/db/models/banking.py, PlaidTransaction). -/
structure TxnRow where
  id : Nat
  accountRef : Nat
  transactionId : String
  amount : String
  name : Option String
  pending : Bool
  deriving DecidableEq, Repr

/-- The banking database state, plus the fresh-id counter. -/
structure BankDb where
  items : List ItemRow
  accounts : List AcctRow
  transactions : List TxnRow
  nextId : Nat
  deriving DecidableEq, Repr

/-- One account as reported by the rail. -/
structure PlaidAcctData where
  accountId : String
  name : Option String
  institutionId : Option String
  available : Option String
  current : Option String
  deriving DecidableEq, Repr

/-- One transaction as reported by the rail. -/
structure PlaidTxnData where
  transactionId : String
  accountId : String
  amount : String
  name : Option String
  pending : Bool
  deriving DecidableEq, Repr

/-- The Plaid remote, modelled as deterministic, successfully answering calls. -/
structure PlaidEnv where
  exchange : String → String × String
  accounts : String → List PlaidAcctData
  institutionName : String → Option String
  transactions : String → List PlaidTxnData

/-- `get_plaid_item` (banking_service.py line 56). -/
def getPlaidItem (st : BankDb) (iid : Nat) : Option ItemRow :=
  st.items.find? (fun i => i.id == iid)

/-- `get_plaid_item_by_item_id` (banking_service.py line 68). -/
def getPlaidItemByItemId (st : BankDb) (railId : String) : Option ItemRow :=
  st.items.find? (fun i => i.itemId == railId)

/-- `get_item_accounts` (banking_service.py line 174). -/
def getItemAccounts (st : BankDb) (iid : Nat) : List AcctRow :=
  st.accounts.filter (fun a => a.itemRef == iid)

/-- `get_plaid_account_by_account_id` (banking_service.py line 162). -/
def getPlaidAccountByAccountId (st : BankDb) (aid : String) : Option AcctRow :=
  st.accounts.find? (fun a => a.accountId == aid)

/-- `get_plaid_transaction_by_transaction_id` (banking_service.py line 256). -/
def getPlaidTransactionByTransactionId (st : BankDb) (tid : String) : Option TxnRow :=
  st.transactions.find? (fun t => t.transactionId == tid)

/-- `delete_plaid_item` (banking_service.py line 115): the ORM cascade
(models/banking.py lines 47 and 93) removes the accounts of the item and
their transactions with it. -/
def deletePlaidItemCascade (st : BankDb) (iid : Nat) : BankDb :=
  let goneAccounts := (st.accounts.filter (fun a => a.itemRef == iid)).map AcctRow.id
  { st with
    items := st.items.filter (fun i => !(i.id == iid)),
    accounts := st.accounts.filter (fun a => !(a.itemRef == iid)),
    transactions := st.transactions.filter (fun t => !(goneAccounts.contains t.accountRef)) }

/-- The per-account body of the `sync_accounts` loop (lines 424-464): update
the row found by rail account id, else insert a new row; the Bool reports
whether a row was created. -/
def upsertAccount (iid : Nat) (st : BankDb) (a : PlaidAcctData) : BankDb × Bool :=
  match getPlaidAccountByAccountId st a.accountId with
  | some ex =>
    ({ st with accounts := st.accounts.map (fun q =>
        if q.id == ex.id then
          { q with name := a.name, availableBalance := a.available,
                   currentBalance := a.current }
        else q) }, false)
  | none =>
    ({ st with
        accounts := st.accounts ++
          [⟨st.nextId, iid, a.accountId, a.name, a.available, a.current, true⟩],
        nextId := st.nextId + 1 }, true)

/-- The {success, message, created, updated} dictionary both sync methods return. -/
structure SyncOutcome where
  success : Bool
  message : String
  created : Nat
  updated : Nat
  deriving DecidableEq, Repr

/-- One iteration of the `sync_accounts` loop over (state, created, updated). -/
def syncAccountsStep (iid : Nat) (acc : BankDb × Nat × Nat) (a : PlaidAcctData) :
    BankDb × Nat × Nat :=
  let r := upsertAccount iid acc.1 a
  (r.1, if r.2 then acc.2.1 + 1 else acc.2.1,
        if r.2 then acc.2.2 else acc.2.2 + 1)

/-- `sync_accounts` (banking_service.py lines 397-483): fetch the account
list, upsert each by rail account id, and report created/updated counts.
The last-sync timestamp refresh touches only an omitted timestamp column. -/
def syncAccounts (env : PlaidEnv) (st : BankDb) (iid : Nat) : SyncOutcome × BankDb :=
  match getPlaidItem st iid with
  | none => (⟨false, "Plaid Item not found", 0, 0⟩, st)
  | some item =>
    let res := (env.accounts item.accessToken).foldl (syncAccountsStep item.id) (st, 0, 0)
    (⟨true, "Accounts synced successfully", res.2.1, res.2.2⟩, res.1)

/-- The {success, message, item_id} dictionary `link_account` returns. -/
structure LinkOutcome where
  success : Bool
  message : String
  itemRef : Option Nat
  deriving DecidableEq, Repr

/-- Best-effort institution id from the first remote account (`link_account`
lines 356-369; enrichment failures are logged and swallowed). -/
def linkInstId (env : PlaidEnv) (accessToken : String) : Option String :=
  match (env.accounts accessToken).head? with
  | some a => a.institutionId
  | none => none

/-- Best-effort institution name for the enrichment step of `link_account`. -/
def linkInstName (env : PlaidEnv) (accessToken : String) : Option String :=
  match linkInstId env accessToken with
  | some i => env.institutionName i
  | none => none

/-- `link_account` (banking_service.py lines 328-395): exchange the public
token; if an item with the resolved rail item id already exists return the
idempotent already-linked result without touching the state; otherwise
enrich institution metadata best-effort, insert the item, and run a full
account sync. -/
def linkAccount (env : PlaidEnv) (st : BankDb) (userId : Nat)
    (publicToken : String) : LinkOutcome × BankDb :=
  let ex := env.exchange publicToken
  match getPlaidItemByItemId st ex.2 with
  | some existing => (⟨false, "This account is already linked", some existing.id⟩, st)
  | none =>
    let newItem : ItemRow := ⟨st.nextId, userId, ex.2, ex.1,
      linkInstId env ex.1, linkInstName env ex.1, true, none⟩
    let st1 : BankDb := { st with items := st.items ++ [newItem], nextId := st.nextId + 1 }
    let st2 := (syncAccounts env st1 newItem.id).2
    (⟨true, "Account linked successfully", some newItem.id⟩, st2)

/-! ## sync_transactions and the datetime.timedelta attribute lookup

banking_service.py imports `datetime` with `from datetime import datetime`
(line 7): the module-level name `datetime` is the datetime class.  Line 515
evaluates `datetime.timedelta(days=days)`; `timedelta` is a sibling class of
the datetime module, not an attribute of the datetime class, so the lookup
raises AttributeError, which the blanket `except Exception` of
`sync_transactions` turns into a failure result.  We embed the attribute
lookup against the class's attribute list. -/

/-- The attributes of the Python datetime class (class and instance members). -/
def datetimeClassAttributeNames : List String :=
  ["min", "max", "resolution", "year", "month", "day", "hour", "minute",
   "second", "microsecond", "tzinfo", "fold", "today", "now", "utcnow",
   "fromtimestamp", "utcfromtimestamp", "fromordinal", "combine",
   "fromisoformat", "fromisocalendar", "strptime", "date", "time", "timetz",
   "replace", "astimezone", "utcoffset", "dst", "tzname", "timetuple",
   "utctimetuple", "toordinal", "timestamp", "weekday", "isoweekday",
   "isocalendar", "isoformat", "ctime", "strftime"]

/-- Line 515: `(datetime.utcnow() - datetime.timedelta(days=days))`, with
days as an offset from the current day number `nowDay`. -/
def computeStartDate (nowDay days : Nat) : Except PyErr Nat :=
  if datetimeClassAttributeNames.contains "timedelta" then
    .ok (nowDay - days)
  else
    .error (.attributeError "datetime.datetime" "timedelta")

/-- The per-transaction body of the `sync_transactions` loop (lines
529-586): resolve the owning local account by rail account id — skipping the
transaction (with a logged warning) when none matches — then upsert by rail
transaction id. -/
def upsertTransaction (accRef : Nat) (st : BankDb) (tx : PlaidTxnData) : BankDb :=
  match getPlaidTransactionByTransactionId st tx.transactionId with
  | some ex =>
    { st with transactions := st.transactions.map (fun q =>
        if q.id == ex.id then
          { q with amount := tx.amount, name := tx.name, pending := tx.pending }
        else q) }
  | none =>
    { st with
        transactions := st.transactions ++
          [⟨st.nextId, accRef, tx.transactionId, tx.amount, tx.name, tx.pending⟩],
        nextId := st.nextId + 1 }

/-- `sync_transactions` (banking_service.py lines 485-605).  `nowDay` stands
for the current date; the blanket `except Exception` materialises as the
error branch of `computeStartDate`. -/
def syncTransactions (env : PlaidEnv) (st : BankDb) (iid : Nat)
    (nowDay days : Nat) : SyncOutcome × BankDb :=
  match getPlaidItem st iid with
  | none => (⟨false, "Plaid Item not found", 0, 0⟩, st)
  | some item =>
    let dbAccounts := getItemAccounts st item.id
    if dbAccounts.isEmpty then
      (⟨false, "No accounts found for this item", 0, 0⟩, st)
    else
      match computeStartDate nowDay days with
      | .error e => (⟨false, "Error syncing transactions: " ++ pyErrStr e, 0, 0⟩, st)
      | .ok _ =>
        let res := (env.transactions item.accessToken).foldl
          (fun (acc : BankDb × Nat × Nat) tx =>
            match dbAccounts.find? (fun a => a.accountId == tx.accountId) with
            | none => acc
            | some dbAcc =>
              match getPlaidTransactionByTransactionId acc.1 tx.transactionId with
              | some _ => (upsertTransaction dbAcc.id acc.1 tx, acc.2.1, acc.2.2 + 1)
              | none => (upsertTransaction dbAcc.id acc.1 tx, acc.2.1 + 1, acc.2.2))
          (st, 0, 0)
        (⟨true, "Transactions synced successfully", res.2.1, res.2.2⟩, res.1)

/-! ## Webhook classification and dispatch (plaid_service.py, banking_service.py) -/

/-- The fields of an inbound webhook payload the handlers read.  `isEmptyDict`
models the falsiness test `if not webhook_data` on the parsed dict. -/
structure WebhookData where
  webhookType : Option String
  webhookCode : Option String
  itemId : Option String
  errorCode : Option String
  isEmptyDict : Bool
  deriving DecidableEq, Repr

/-- Python truthiness of a .get() result: present and non-empty. -/
def truthyStr : Option String → Bool
  | none => false
  | some s => !(s == "")

/-- The normalized classification dict `handle_webhook` builds. -/
structure WebhookClassification where
  webhookType : String
  webhookCode : String
  itemId : String
  requiresAction : Bool
  action : Option String
  message : Option String
  errorCode : Option String
  deriving DecidableEq, Repr

/-- `_handle_transactions_webhook` (plaid_service.py lines 347-369). -/
def classifyTransactionsHook (code : String) (base : WebhookClassification) :
    WebhookClassification :=
  if code == "INITIAL_UPDATE" then
    { base with message := some "Initial transaction pull finished",
                requiresAction := true, action := some "sync_transactions" }
  else if code == "HISTORICAL_UPDATE" then
    { base with message := some "Historical transaction pull finished",
                requiresAction := true, action := some "sync_transactions" }
  else if code == "DEFAULT_UPDATE" then
    { base with message := some "New transactions available",
                requiresAction := true, action := some "sync_transactions" }
  else if code == "TRANSACTIONS_REMOVED" then
    { base with message := some "Transactions removed",
                requiresAction := true, action := some "sync_transactions" }
  else base

/-- `_handle_item_webhook` (plaid_service.py lines 371-390). -/
def classifyItemHook (code : String) (d : WebhookData)
    (base : WebhookClassification) : WebhookClassification :=
  if code == "ERROR" then
    { base with message := some "Item error occurred", requiresAction := true,
                action := some "update_item_error", errorCode := d.errorCode }
  else if code == "PENDING_EXPIRATION" then
    { base with message := some "Access token is expiring soon",
                requiresAction := true, action := some "notify_user" }
  else if code == "USER_PERMISSION_REVOKED" then
    { base with message := some "User revoked access", requiresAction := true,
                action := some "remove_item" }
  else base

/-- `_handle_auth_webhook` (plaid_service.py lines 392-405). -/
def classifyAuthHook (code : String) (base : WebhookClassification) :
    WebhookClassification :=
  if code == "AUTOMATICALLY_VERIFIED" then
    { base with message := some "Microdeposits automatically verified",
                requiresAction := true, action := some "update_account_status" }
  else if code == "VERIFICATION_EXPIRED" then
    { base with message := some "Microdeposits verification expired",
                requiresAction := true, action := some "notify_user" }
  else base

/-- `PlaidService.handle_webhook` (plaid_service.py lines 306-345). -/
def handleWebhook (d : WebhookData) : Except PyErr WebhookClassification :=
  if d.isEmptyDict then
    .error (.valueError "Empty webhook data received")
  else if !(truthyStr d.webhookType && truthyStr d.webhookCode && truthyStr d.itemId) then
    .error (.valueError "Invalid webhook data: missing required fields")
  else
    let base : WebhookClassification :=
      ⟨d.webhookType.getD "", d.webhookCode.getD "", d.itemId.getD "",
       false, none, none, none⟩
    if base.webhookType == "TRANSACTIONS" then
      .ok (classifyTransactionsHook base.webhookCode base)
    else if base.webhookType == "ITEM" then
      .ok (classifyItemHook base.webhookCode d base)
    else if base.webhookType == "AUTH" then
      .ok (classifyAuthHook base.webhookCode base)
    else
      .ok base

/-- The methods defined on the BankingService class (banking_service.py):
`sync_item_transactions`, which `process_webhook` line 646 calls, is not
among them — it names an endpoint function in api/endpoints/banking.py, not
a service method — so the attribute lookup on `self` raises AttributeError,
which the blanket handler converts into a failure dictionary. -/
def bankingServiceMethodNames : List String :=
  ["create_plaid_item", "get_plaid_item", "get_plaid_item_by_item_id",
   "get_user_plaid_items", "update_plaid_item", "delete_plaid_item",
   "create_plaid_account", "get_plaid_account", "get_plaid_account_by_account_id",
   "get_item_accounts", "update_plaid_account", "delete_plaid_account",
   "create_plaid_transaction", "get_plaid_transaction",
   "get_plaid_transaction_by_transaction_id", "get_account_transactions",
   "update_plaid_transaction", "delete_plaid_transaction", "link_account",
   "sync_accounts", "sync_transactions", "process_webhook"]

/-- The {success, message} dictionary `process_webhook` returns. -/
structure ProcessOutcome where
  success : Bool
  message : String
  deriving DecidableEq, Repr

/-- `BankingService.process_webhook` (banking_service.py lines 608-716):
classify, look the item up, perform the action; every exception raised
inside is caught by the enclosing handler and rendered as a failure
dictionary — nothing escapes. -/
def processWebhook (st : BankDb) (d : WebhookData) : ProcessOutcome × BankDb :=
  match handleWebhook d with
  | .error e => (⟨false, "Error processing webhook: " ++ pyErrStr e⟩, st)
  | .ok wr =>
    if !wr.requiresAction then
      (⟨true, "Webhook processed, no action required"⟩, st)
    else
      match getPlaidItemByItemId st wr.itemId with
      | none => (⟨false, "Plaid Item not found: " ++ wr.itemId⟩, st)
      | some item =>
        match wr.action with
        | some "sync_transactions" =>
          if bankingServiceMethodNames.contains "sync_item_transactions" then
            (⟨true, "Transaction sync completed"⟩, st)
          else
            (⟨false, "Error processing webhook: " ++
                pyErrStr (.attributeError "BankingService" "sync_item_transactions")⟩, st)
        | some "update_item_error" =>
          let deactivated := wr.errorCode == some "ITEM_LOGIN_REQUIRED" ||
            wr.errorCode == some "INVALID_CREDENTIALS"
          (⟨true, "Item error updated"⟩,
           { st with items := st.items.map (fun i =>
              if i.id == item.id then
                { i with errorCode := wr.errorCode, isActive := !deactivated }
              else i) })
        | some "remove_item" =>
          (⟨true, "Item removed due to user permission revocation"⟩,
           deletePlaidItemCascade st item.id)
        | some "update_account_status" =>
          (⟨true, "Account status updated"⟩,
           { st with accounts := st.accounts.map (fun a =>
              if a.itemRef == item.id then { a with isActive := true } else a) })
        | some "notify_user" =>
          (⟨true, "User notification logged"⟩, st)
        | other =>
          (⟨false, "Unknown action required: " ++ (other.getD "None")⟩, st)

/-- The parse outcome of `await request.json()`: a payload, or the
JSONDecodeError (a ValueError subclass) a malformed body raises. -/
inductive RequestBody where
  | valid (d : WebhookData)
  | malformed
  deriving DecidableEq, Repr

/-- The HTTP response of the webhook endpoint: a 200 WebhookResponse body, or
the HTTPException raised from the ValueError handler. -/
inductive HttpResp where
  | ok (success : Bool) (message : String)
  | clientError (status : Nat) (detail : String)
  deriving DecidableEq, Repr

/-- The HTTP status code of a response. -/
def httpStatus : HttpResp → Nat
  | .ok _ _ => 200
  | .clientError s _ => s

/-- `handle_plaid_webhook` (api/endpoints/banking.py lines 367-415): a body
that fails JSON parsing raises JSONDecodeError, caught by `except ValueError`
which raises HTTPException(400); a parsed body reaches `process_webhook`,
whose result is returned as a 200 WebhookResponse (the endpoint's
`except Exception` branch would answer 200 as well, but `process_webhook`
never raises). -/
def handlePlaidWebhook (st : BankDb) (body : RequestBody) : HttpResp × BankDb :=
  match body with
  | .malformed => (.clientError 400 "Expecting value", st)
  | .valid d =>
    let r := processWebhook st d
    (.ok r.1.success r.1.message, r.2)

end Fintech

namespace Fintech

/-! ## Helper lemmas on association-list lookup -/

theorem lookup_eq_none_of_not_mem (m : List (String × PaymentStatus)) (s : String)
    (h : s ∉ mapKeys m) : m.lookup s = none := by
  induction m with
  | nil => rfl
  | cons kv t ih =>
    have hne : s ≠ kv.1 := by
      intro he
      exact h (by simp [mapKeys, he])
    have ht : s ∉ mapKeys t := by
      intro hm
      exact h (by simp [mapKeys] at hm ⊢; exact Or.inr hm)
    simp [List.lookup, beq_eq_false_iff_ne.mpr hne, ih ht]

theorem mem_of_lookup_eq_some (m : List (String × PaymentStatus)) (s : String)
    (v : PaymentStatus) (h : m.lookup s = some v) : (s, v) ∈ m := by
  induction m with
  | nil => simp [List.lookup] at h
  | cons kv t ih =>
    by_cases he : s = kv.1
    · subst he
      simp [List.lookup] at h
      subst h
      exact List.mem_cons_self _ _
    · simp [List.lookup, beq_eq_false_iff_ne.mpr he] at h
      exact List.mem_cons_of_mem _ (ih h)

theorem completed_key_of_map_eq (m : List (String × PaymentStatus)) (t : String)
    (h : lookupStatus m t = .completed) : t ∈ mapKeys m := by
  cases hv : m.lookup t with
  | none => simp [lookupStatus, hv] at h
  | some v =>
    have hm := mem_of_lookup_eq_some m t v hv
    have : t ∈ m.map Prod.fst := List.mem_map_of_mem Prod.fst hm
    simpa [mapKeys] using this

/-! ## Claim theorems: provider status mapping (C4) -/

/-- C4: for each of the three provider adapters (card rail = Stripe, wallet
rail = PayPal, bank rail = Plaid/ACH) the native-to-internal status map is a
total function on strings, realised as a finite table lookup whose default is
`failed`: any native status not listed in the adapter's table maps to
`failed`, and `completed` can only arise from a listed key, never from an
unknown status. -/
theorem C4_status_mapping_total_default_failed (s : String)
    (hs : s ∉ mapKeys stripeStatusMap)
    (hp : s ∉ mapKeys paypalStatusMap)
    (hl : s ∉ mapKeys plaidStatusMap) :
    mapStripeStatus s = .failed ∧ mapPaypalStatus s = .failed ∧
    mapPlaidStatus s = .failed ∧
    (∀ t : String, mapStripeStatus t = .completed → t ∈ mapKeys stripeStatusMap) ∧
    (∀ t : String, mapPaypalStatus t = .completed → t ∈ mapKeys paypalStatusMap) ∧
    (∀ t : String, mapPlaidStatus t = .completed → t ∈ mapKeys plaidStatusMap) := by
  refine ⟨?_, ?_, ?_, ?_, ?_, ?_⟩
  · simp [mapStripeStatus, lookupStatus, lookup_eq_none_of_not_mem _ _ hs]
  · simp [mapPaypalStatus, lookupStatus, lookup_eq_none_of_not_mem _ _ hp]
  · simp [mapPlaidStatus, lookupStatus, lookup_eq_none_of_not_mem _ _ hl]
  · exact fun t ht => completed_key_of_map_eq _ t ht
  · exact fun t ht => completed_key_of_map_eq _ t ht
  · exact fun t ht => completed_key_of_map_eq _ t ht

/-- Witness for C4 at the concrete unknown native status "mystery_status". -/
theorem C4_status_mapping_witness :
    mapStripeStatus "mystery_status" = .failed ∧
    mapPaypalStatus "mystery_status" = .failed ∧
    mapPlaidStatus "mystery_status" = .failed := by
  have h := C4_status_mapping_total_default_failed "mystery_status"
    (by decide) (by decide) (by decide)
  exact ⟨h.1, h.2.1, h.2.2.1⟩

/-! ## Claim theorems: cancel_payment (C3, C10) -/

/-- C3: for a Payment whose local status is neither `pending` nor
`processing` (in particular `completed`), `cancel_payment` raises the
business-rule error ("Cannot cancel payment in ... state") without invoking
the provider adapter, and the returned database state is exactly the input
state: no field of any record is modified. -/
theorem C3_cancel_completed_rejected (adapter : Except PyErr ProviderResp)
    (db : PayDb) (pid : Nat) (p : PaymentRec)
    (hfind : getPaymentById db pid = some p)
    (hstat : p.status ≠ .pending ∧ p.status ≠ .processing) :
    cancelPayment adapter db pid =
      ⟨.error (.paymentError (cancelGuardMsg p.status)), db, false⟩ := by
  simp [cancelPayment, hfind, hstat]

/-- Witness for C3: a completed payment; the cancel is rejected, the state is
unchanged and the adapter is never consulted. -/
theorem C3_cancel_completed_witness :
    cancelPayment (.ok ⟨"pi_1", .canceled, 50, "USD", "raw"⟩)
      ⟨[⟨1, "pi_1", 7, 50, "USD", .completed, .stripe, none, none, none⟩], []⟩ 1 =
      ⟨.error (.paymentError (cancelGuardMsg .completed)),
       ⟨[⟨1, "pi_1", 7, 50, "USD", .completed, .stripe, none, none, none⟩], []⟩,
       false⟩ :=
  C3_cancel_completed_rejected _ _ 1
    ⟨1, "pi_1", 7, 50, "USD", .completed, .stripe, none, none, none⟩
    (by decide) (by decide)

/-- C10: when the local status is `pending` or `processing` and the adapter
call returns without raising, the reconciliation layer sets the local status
to `canceled` unconditionally — the returned response's own status field is
ignored.  The wallet-rail and bank-rail adapters indeed return the current
(non-canceled) payment unchanged whenever it is in their cancellable states,
instead of performing a remote cancellation. -/
theorem C10_cancel_overwrites_status (resp : ProviderResp) (db : PayDb)
    (pid : Nat) (p : PaymentRec)
    (hfind : getPaymentById db pid = some p)
    (hstat : p.status = .pending ∨ p.status = .processing) :
    (cancelPayment (.ok resp) db pid).outcome =
      .ok (some { p with status := .canceled, providerResponse := some resp.raw }) ∧
    (∀ cur : ProviderResp, cur.status = .pending → paypalCancelPayment cur = .ok cur) ∧
    (∀ cur : ProviderResp, cur.status = .pending ∨ cur.status = .processing →
      plaidCancelPayment cur = .ok cur) := by
  refine ⟨?_, ?_, ?_⟩
  · rcases hstat with h | h <;> simp [cancelPayment, hfind, h]
  · intro cur h
    simp [paypalCancelPayment, h]
  · intro cur h
    rcases h with h | h <;> simp [plaidCancelPayment, h]

/-- Witness for C10: a pending payment canceled through the wallet rail; the
adapter returns the payment still `pending`, yet the local row ends
`canceled`. -/
theorem C10_cancel_overwrites_witness :
    (cancelPayment (.ok ⟨"ord_1", .pending, 50, "USD", "raw"⟩)
      ⟨[⟨1, "ord_1", 7, 50, "USD", .pending, .paypal, none, none, none⟩], []⟩ 1).outcome =
      .ok (some ⟨1, "ord_1", 7, 50, "USD", .canceled, .paypal, some "raw", none, none⟩) :=
  (C10_cancel_overwrites_status ⟨"ord_1", .pending, 50, "USD", "raw"⟩ _ 1
    ⟨1, "ord_1", 7, 50, "USD", .pending, .paypal, none, none, none⟩
    (by decide) (Or.inl rfl)).1

/-! ## Claim theorems: create_refund (C1, C2) -/

/-- C1 counterexample: a completed 50 USD payment owned by user 7, a refund
request for 100 (which exceeds the parent amount), and a succeeding adapter.
The claim says `create_refund` rejects before any adapter call and creates no
Refund row; instead the adapter is invoked, the call succeeds, and a Refund
row for 100 is committed. -/
theorem C1_refund_amount_counterexample :
    (createRefund (.ok ⟨"re_1", .completed, 100, "USD", "raw"⟩)
      ⟨[⟨1, "pi_1", 7, 50, "USD", .completed, .stripe, none, none, none⟩], []⟩
      ⟨1, some 100, none⟩ 7 2).adapterCalled = true ∧
    (createRefund (.ok ⟨"re_1", .completed, 100, "USD", "raw"⟩)
      ⟨[⟨1, "pi_1", 7, 50, "USD", .completed, .stripe, none, none, none⟩], []⟩
      ⟨1, some 100, none⟩ 7 2).outcome =
      .ok ⟨2, 1, "re_1", 100, "USD", .processing, none⟩ ∧
    (createRefund (.ok ⟨"re_1", .completed, 100, "USD", "raw"⟩)
      ⟨[⟨1, "pi_1", 7, 50, "USD", .completed, .stripe, none, none, none⟩], []⟩
      ⟨1, some 100, none⟩ 7 2).db.refunds =
      [⟨2, 1, "re_1", 100, "USD", .processing, none⟩] ∧
    (50 : ℚ) < 100 := by
  refine ⟨rfl, rfl, rfl, by norm_num⟩

/-- C1 amended: `create_refund` validates only existence, ownership and a
`completed` parent status; it never compares a specified refund amount with
the parent payment's amount.  For any specified amount — including one
exceeding the parent's — the request reaches the adapter, and when the
adapter succeeds a Refund row carrying exactly that amount is created. -/
theorem C1_refund_amount_not_validated (adapter : Except PyErr ProviderResp)
    (db : PayDb) (rd : RefundCreateData) (userId freshId : Nat) (p : PaymentRec)
    (a : ℚ) (hfind : getPaymentById db rd.paymentId = some p)
    (hown : p.userId = userId) (hstat : p.status = .completed)
    (hamt : rd.amount = some a) :
    (createRefund adapter db rd userId freshId).adapterCalled = true ∧
    (∀ resp : ProviderResp, adapter = .ok resp →
      (createRefund adapter db rd userId freshId).outcome =
        .ok ⟨freshId, p.id, resp.paymentId, a, p.currency, .processing, rd.reason⟩ ∧
      (createRefund adapter db rd userId freshId).db.refunds =
        db.refunds ++ [⟨freshId, p.id, resp.paymentId, a, p.currency, .processing, rd.reason⟩]) := by
  constructor
  · cases adapter with
    | ok resp => simp [createRefund, hfind, hown, hstat, hamt]
    | error e =>
      by_cases he : isPaymentError e = true <;>
        simp [createRefund, hfind, hown, hstat, hamt, he]
  · intro resp hresp
    subst hresp
    constructor <;> simp [createRefund, hfind, hown, hstat, hamt]

/-- Witness for the amended C1: the over-amount refund of the counterexample
input flows through to the adapter and produces a Refund row of amount 100
against a parent of amount 50. -/
theorem C1_refund_amount_witness :
    (createRefund (.ok ⟨"re_1", .completed, 100, "USD", "raw"⟩)
      ⟨[⟨1, "pi_1", 7, 50, "USD", .completed, .stripe, none, none, none⟩], []⟩
      ⟨1, some 100, none⟩ 7 2).adapterCalled = true ∧
    (createRefund (.ok ⟨"re_1", .completed, 100, "USD", "raw"⟩)
      ⟨[⟨1, "pi_1", 7, 50, "USD", .completed, .stripe, none, none, none⟩], []⟩
      ⟨1, some 100, none⟩ 7 2).outcome =
      .ok ⟨2, 1, "re_1", 100, "USD", .processing, none⟩ := by
  have h := C1_refund_amount_not_validated
    (.ok ⟨"re_1", .completed, 100, "USD", "raw"⟩)
    ⟨[⟨1, "pi_1", 7, 50, "USD", .completed, .stripe, none, none, none⟩], []⟩
    ⟨1, some 100, none⟩ 7 2
    ⟨1, "pi_1", 7, 50, "USD", .completed, .stripe, none, none, none⟩
    100 (by decide) rfl rfl rfl
  exact ⟨h.1, (h.2 ⟨"re_1", .completed, 100, "USD", "raw"⟩ rfl).1⟩

/-- C2 (code bug): for a completed payment owned by the requester and a
refund request with no amount specified, the success half of the claim
holds: on adapter success exactly one Refund row is appended, carrying
status `processing` and the parent's full amount, and in the same committed
state the parent flips to `refunded`.  But on the adapter failure the claim
describes — a transport/remote-API error — the exception escaping the
providers is the NameError of the unbound `ProviderEnum` (see the module
name environments), which `create_refund`'s `except PaymentError` clause
does not match: the handler is bypassed, the database is left completely
unchanged — in particular no error fields are recorded and no Refund row is
created — and the NameError propagates to the caller. -/
theorem C2_refund_failure_fields_unrecorded (db : PayDb) (rd : RefundCreateData)
    (userId freshId : Nat) (p : PaymentRec)
    (hfind : getPaymentById db rd.paymentId = some p)
    (hown : p.userId = userId) (hstat : p.status = .completed)
    (hamt : rd.amount = none) :
    (∀ resp : ProviderResp,
      (createRefund (.ok resp) db rd userId freshId).outcome =
        .ok ⟨freshId, p.id, resp.paymentId, p.amount, p.currency, .processing, rd.reason⟩ ∧
      (createRefund (.ok resp) db rd userId freshId).db.refunds =
        db.refunds ++ [⟨freshId, p.id, resp.paymentId, p.amount, p.currency, .processing, rd.reason⟩] ∧
      (createRefund (.ok resp) db rd userId freshId).db.payments =
        (putPayment db { p with status := .refunded }).payments) ∧
    (createRefund (.error (.nameError "ProviderEnum")) db rd userId freshId).outcome =
      .error (.nameError "ProviderEnum") ∧
    (createRefund (.error (.nameError "ProviderEnum")) db rd userId freshId).db = db := by
  refine ⟨?_, ?_, ?_⟩
  · intro resp
    refine ⟨?_, ?_, ?_⟩ <;> simp [createRefund, putPayment, hfind, hown, hstat, hamt]
  · simp [createRefund, hfind, hown, hstat, hamt, isPaymentError]
  · simp [createRefund, hfind, hown, hstat, hamt, isPaymentError]

/-- Witness for C2 at the spec's own scenario state: payment P1 of 50.00,
completed, owned by the requester; a transport failure (escaping as the
NameError of the unbound ProviderEnum) leaves the database untouched — no
error fields, no Refund row — and propagates. -/
theorem C2_refund_failure_witness :
    (createRefund (.error (.nameError "ProviderEnum"))
      ⟨[⟨1, "pi_1", 7, 50, "USD", .completed, .stripe, none, none, none⟩], []⟩
      ⟨1, none, none⟩ 7 2).outcome = .error (.nameError "ProviderEnum") ∧
    (createRefund (.error (.nameError "ProviderEnum"))
      ⟨[⟨1, "pi_1", 7, 50, "USD", .completed, .stripe, none, none, none⟩], []⟩
      ⟨1, none, none⟩ 7 2).db =
      ⟨[⟨1, "pi_1", 7, 50, "USD", .completed, .stripe, none, none, none⟩], []⟩ := by
  have h := C2_refund_failure_fields_unrecorded
    ⟨[⟨1, "pi_1", 7, 50, "USD", .completed, .stripe, none, none, none⟩], []⟩
    ⟨1, none, none⟩ 7 2
    ⟨1, "pi_1", 7, 50, "USD", .completed, .stripe, none, none, none⟩
    (by decide) rfl rfl rfl
  exact ⟨h.2.1, h.2.2⟩

/-! ## Claim theorem: adapter error wrapping (C5) -/

/-- C5 (code bug): in each of the three provider modules the `except`
handlers build `PaymentProviderError(provider=ProviderEnum.X, ...)`, but the
name `ProviderEnum` is bound in none of them, so what actually escapes an
adapter operation whose remote call raised is a `NameError`, not a
ProviderError carrying provider identity, message and optional code. -/
theorem C5_nameerror_escapes_adapters (e : AdapterErr) :
    stripeEscapingError e = .nameError "ProviderEnum" ∧
    paypalEscapingError e = .nameError "ProviderEnum" ∧
    plaidEscapingError e = .nameError "ProviderEnum" ∧
    isProviderError (stripeEscapingError e) = false ∧
    isProviderError (paypalEscapingError e) = false ∧
    isProviderError (plaidEscapingError e) = false := by
  have hs : ("ProviderEnum" ∈ stripeModuleNames) = False := by
    simp only [eq_iff_iff, iff_false]
    decide
  have hp : ("ProviderEnum" ∈ paypalModuleNames) = False := by
    simp only [eq_iff_iff, iff_false]
    decide
  have hl : ("ProviderEnum" ∈ plaidModuleNames) = False := by
    simp only [eq_iff_iff, iff_false]
    decide
  refine ⟨?_, ?_, ?_, ?_, ?_, ?_⟩ <;>
    simp [stripeEscapingError, paypalEscapingError, plaidEscapingError,
          wrapAdapterError, isProviderError, hs, hp, hl]

/-! ## Helper lemmas: default payment-method counting (C9) -/

theorem countDefaults_clearDefaults_self (u : Nat) (pr : ProviderTag)
    (t : MethodType) (db : List MethodRec) :
    countDefaults (clearDefaults u pr t db) u pr t = 0 := by
  rw [countDefaults, List.countP_eq_zero]
  intro a ha
  obtain ⟨x, _, rfl⟩ := List.mem_map.mp ha
  by_cases hc : (x.isDefault && sameTriple x u pr t) = true
  · simp [clearOne, hc]
  · simp [clearOne, hc]

theorem sameTriple_eq_of_both {m : MethodRec} {u u' : Nat} {pr pr' : ProviderTag}
    {t t' : MethodType} (h : sameTriple m u pr t = true)
    (h' : sameTriple m u' pr' t' = true) : u' = u ∧ pr' = pr ∧ t' = t := by
  simp only [sameTriple, Bool.and_eq_true_iff, beq_iff_eq] at h h'
  obtain ⟨⟨h1, h2⟩, h3⟩ := h
  obtain ⟨⟨h1', h2'⟩, h3'⟩ := h'
  exact ⟨h1'.symm.trans h1, h2'.symm.trans h2, h3'.symm.trans h3⟩

theorem sameTriple_false_of_ne {m : MethodRec} {u u' : Nat} {pr pr' : ProviderTag}
    {t t' : MethodType} (hm : sameTriple m u pr t = true)
    (h : ¬(u' = u ∧ pr' = pr ∧ t' = t)) : sameTriple m u' pr' t' = false := by
  cases hxx : sameTriple m u' pr' t'
  · rfl
  · exact absurd (sameTriple_eq_of_both hm hxx) h

theorem sameTriple_self_of_fields {m : MethodRec} {u : Nat}
    (hu : m.userId = u) : sameTriple m u m.provider m.mtype = true := by
  simp [sameTriple, hu]

theorem countDefaults_clearDefaults_ne (u u' : Nat) (pr pr' : ProviderTag)
    (t t' : MethodType) (db : List MethodRec)
    (h : ¬(u' = u ∧ pr' = pr ∧ t' = t)) :
    countDefaults (clearDefaults u pr t db) u' pr' t' =
      countDefaults db u' pr' t' := by
  rw [countDefaults, clearDefaults, List.countP_map, countDefaults]
  apply List.countP_congr
  intro x _
  rw [Function.comp_apply]
  by_cases hc : (x.isDefault && sameTriple x u pr t) = true
  · have hs' : sameTriple x u' pr' t' = false :=
      sameTriple_false_of_ne (Bool.and_eq_true_iff.mp hc).2 h
    have hcx : clearOne u pr t x = { x with isDefault := false } := by
      rw [clearOne, if_pos hc]
    rw [hcx]
    constructor
    · intro hfalse
      rw [show sameTriple { x with isDefault := false } u' pr' t' =
            sameTriple x u' pr' t' from rfl, hs'] at hfalse
      simp at hfalse
    · intro hfalse
      rw [hs'] at hfalse
      simp at hfalse
  · have hcx : clearOne u pr t x = x := by
      rw [clearOne, if_neg hc]
    rw [hcx]

theorem countP_setFirst_le {α : Type} (p q : α → Bool) (f : α → α) (l : List α) :
    List.countP q (setFirst p f l) ≤ List.countP q l + 1 := by
  induction l with
  | nil => simp [setFirst]
  | cons m rest ih =>
    by_cases hp : p m = true
    · rw [setFirst, if_pos hp, List.countP_cons, List.countP_cons]
      by_cases h1 : q (f m) = true <;> by_cases h2 : q m = true <;>
        simp [h1, h2] <;> omega
    · rw [setFirst, if_neg hp, List.countP_cons, List.countP_cons]
      by_cases h2 : q m = true <;> simp [h2] <;> omega

theorem countP_setFirst_eq {α : Type} (p q : α → Bool) (f : α → α) (l : List α)
    (h : ∀ x, l.find? p = some x → q x = false ∧ q (f x) = false) :
    List.countP q (setFirst p f l) = List.countP q l := by
  induction l with
  | nil => rfl
  | cons m rest ih =>
    by_cases hp : p m = true
    · have hfind : (m :: rest).find? p = some m := by
        rw [List.find?_cons, hp]
      obtain ⟨h1, h2⟩ := h m hfind
      rw [setFirst, if_pos hp, List.countP_cons, List.countP_cons, h1, h2]
    · have hpf : p m = false := by
        cases hcase : p m
        · rfl
        · exact absurd hcase hp
      have hfind : (m :: rest).find? p = rest.find? p := by
        rw [List.find?_cons, hpf]
      rw [setFirst, if_neg hp, List.countP_cons, List.countP_cons,
          ih (fun x hx => h x (by rw [hfind]; exact hx))]

theorem clearOne_id (u : Nat) (pr : ProviderTag) (t : MethodType) (m : MethodRec) :
    (clearOne u pr t m).id = m.id := by
  unfold clearOne
  split <;> rfl

theorem clearOne_triple (u : Nat) (pr : ProviderTag) (t : MethodType)
    (m : MethodRec) (u' : Nat) (pr' : ProviderTag) (t' : MethodType) :
    sameTriple (clearOne u pr t m) u' pr' t' = sameTriple m u' pr' t' := by
  unfold clearOne
  split <;> rfl

theorem createPaymentMethod_preserves (db : List MethodRec) (freshId u : Nat)
    (pr : ProviderTag) (t : MethodType) (token : String) (isDef : Bool)
    (hInv : AtMostOneDefault db) :
    AtMostOneDefault (createPaymentMethod db freshId u pr t token isDef) := by
  intro u' pr' t'
  unfold createPaymentMethod countDefaults
  by_cases hd : isDef = true
  · rw [hd]
    simp only [if_pos, List.countP_append]
    by_cases htr : u' = u ∧ pr' = pr ∧ t' = t
    · obtain ⟨rfl, rfl, rfl⟩ := htr
      have h0 := countDefaults_clearDefaults_self u' pr' t' db
      rw [countDefaults] at h0
      rw [h0]
      simp [sameTriple]
    · have hne := countDefaults_clearDefaults_ne u u' pr pr' t t' db htr
      rw [countDefaults, countDefaults] at hne
      rw [hne]
      have hx : List.countP (fun m => m.isDefault && sameTriple m u' pr' t')
          [(⟨freshId, u, pr, t, token, none, true, true⟩ : MethodRec)] = 0 := by
        rw [List.countP_eq_zero]
        intro a ha
        rw [List.mem_singleton] at ha
        subst ha
        intro hcon
        have hsx := (Bool.and_eq_true_iff.mp hcon).2
        rw [sameTriple] at hsx
        simp only [Bool.and_eq_true_iff, beq_iff_eq] at hsx
        obtain ⟨⟨e1, e2⟩, e3⟩ := hsx
        exact htr ⟨e1.symm, e2.symm, e3.symm⟩
      rw [hx]
      have := hInv u' pr' t'
      rw [countDefaults] at this
      omega
  · have hd' : isDef = false := Bool.eq_false_iff.mpr hd
    rw [hd']
    simp only [Bool.false_eq_true, if_neg, not_false_eq_true, List.countP_append]
    have hx : List.countP (fun m => m.isDefault && sameTriple m u' pr' t')
        [(⟨freshId, u, pr, t, token, none, false, true⟩ : MethodRec)] = 0 := by
      simp
    rw [hx]
    have := hInv u' pr' t'
    rw [countDefaults] at this
    omega

theorem setDefaultPaymentMethod_preserves (db : List MethodRec) (mid uid : Nat)
    (hInv : AtMostOneDefault db) :
    AtMostOneDefault (setDefaultPaymentMethod db mid uid).db := by
  unfold setDefaultPaymentMethod
  cases hf : db.find? (fun m => m.id == mid) with
  | none => exact hInv
  | some m =>
    show AtMostOneDefault
      (if m.userId ≠ uid then
        (⟨.error (.paymentError "Payment method does not belong to user"), db⟩ :
          SetDefaultResult)
      else
        ⟨.ok (some { m with isDefault := true }),
         setFirst (fun q => q.id == mid) (fun q => { q with isDefault := true })
           (clearDefaults uid m.provider m.mtype db)⟩).db
    by_cases ho : m.userId ≠ uid
    · rw [if_pos ho]
      exact hInv
    · rw [if_neg ho]
      have hmu : m.userId = uid := of_not_not ho
      intro u' pr' t'
      rw [countDefaults]
      have hfind : (clearDefaults uid m.provider m.mtype db).find?
          (fun q => q.id == mid) = some (clearOne uid m.provider m.mtype m) := by
        rw [clearDefaults, List.find?_map]
        have hcomp : ((fun q : MethodRec => q.id == mid) ∘ clearOne uid m.provider m.mtype) =
            (fun q : MethodRec => q.id == mid) := by
          funext y
          rw [Function.comp_apply, clearOne_id]
        rw [hcomp, hf]
        rfl
      by_cases htr : u' = uid ∧ pr' = m.provider ∧ t' = m.mtype
      · obtain ⟨h1, h2, h3⟩ := htr
        rw [h1, h2, h3]
        have h0 := countDefaults_clearDefaults_self uid m.provider m.mtype db
        rw [countDefaults] at h0
        have hle := countP_setFirst_le (fun q : MethodRec => q.id == mid)
          (fun q : MethodRec => q.isDefault && sameTriple q uid m.provider m.mtype)
          (fun q : MethodRec => { q with isDefault := true })
          (clearDefaults uid m.provider m.mtype db)
        rw [h0] at hle
        exact hle
      · have hmt : sameTriple m u' pr' t' = false :=
          sameTriple_false_of_ne (sameTriple_self_of_fields hmu) htr
        have hne := countDefaults_clearDefaults_ne uid u' m.provider pr' m.mtype t' db htr
        rw [countDefaults, countDefaults] at hne
        rw [countP_setFirst_eq]
        · rw [hne]
          have := hInv u' pr' t'
          rw [countDefaults] at this
          exact this
        · intro x hx
          rw [hfind] at hx
          injection hx with hx
          subst hx
          have hxt : sameTriple (clearOne uid m.provider m.mtype m) u' pr' t' = false :=
            (clearOne_triple uid m.provider m.mtype m u' pr' t').trans hmt
          constructor
          · rw [hxt, Bool.and_false]
          · rw [show sameTriple { clearOne uid m.provider m.mtype m with isDefault := true }
                  u' pr' t' = sameTriple (clearOne uid m.provider m.mtype m) u' pr' t' from rfl,
                hxt, Bool.and_false]

theorem applyMethodOps_preserves (ops : List MethodOp) :
    ∀ st : List MethodRec × Nat, AtMostOneDefault st.1 →
      AtMostOneDefault (applyMethodOps ops st).1 := by
  induction ops with
  | nil => intro st h; exact h
  | cons op rest ih =>
    intro st h
    rw [applyMethodOps, List.foldl_cons]
    apply ih
    cases op with
    | create u pr t token isDef =>
      exact createPaymentMethod_preserves st.1 st.2 u pr t token isDef h
    | setDef mid uid =>
      exact setDefaultPaymentMethod_preserves st.1 mid uid h

/-- C9: starting from an empty PaymentMethod table, after any sequence of
`create_payment_method` and `set_default_payment_method` operations at most
one method carries is_default for each (owner, provider, type) triple —
every default-setting operation first clears the flag on the other methods
of that triple within the same committed transaction. -/
theorem C9_at_most_one_default (ops : List MethodOp) :
    AtMostOneDefault (applyMethodOps ops ([], 0)).1 := by
  apply applyMethodOps_preserves
  intro u pr t
  simp [countDefaults]

/-! ## Claim theorems: webhook endpoint (C6) -/

/-- C6 counterexample: a request body that fails JSON parsing raises
JSONDecodeError, a ValueError subclass, so the endpoint's
`except ValueError` branch raises HTTPException with status 400 — not the
claimed HTTP 200 {success, message} body. -/
theorem C6_webhook_counterexample :
    handlePlaidWebhook ⟨[], [], [], 0⟩ .malformed =
      (.clientError 400 "Expecting value", ⟨[], [], [], 0⟩) ∧
    httpStatus (handlePlaidWebhook ⟨[], [], [], 0⟩ .malformed).1 = 400 ∧
    (∀ b m, (handlePlaidWebhook ⟨[], [], [], 0⟩ .malformed).1 ≠ .ok b m) := by
  refine ⟨rfl, rfl, ?_⟩
  intro b m h
  simp [handlePlaidWebhook] at h

/-- C6 amended: for every payload that parses as JSON — including empty or
invalid ones and those whose internal processing fails — the endpoint
returns HTTP 200 with the {success, message} body produced by
`process_webhook`, which catches every internal error; a body that is not
valid JSON instead yields an HTTPException with status 400. -/
theorem C6_webhook_parse_ok_always_200 (st : BankDb) (d : WebhookData) :
    handlePlaidWebhook st (.valid d) =
      (.ok (processWebhook st d).1.success (processWebhook st d).1.message,
       (processWebhook st d).2) ∧
    httpStatus (handlePlaidWebhook st (.valid d)).1 = 200 := by
  exact ⟨rfl, rfl⟩

/-! ## Helper lemmas: link_account and sync_accounts (C7) -/

theorem upsertAccount_items (iid : Nat) (st : BankDb) (a : PlaidAcctData) :
    (upsertAccount iid st a).1.items = st.items := by
  cases h : getPlaidAccountByAccountId st a.accountId <;>
    simp [upsertAccount, h]

theorem foldl_syncAccountsStep_items (iid : Nat) (l : List PlaidAcctData) :
    ∀ acc : BankDb × Nat × Nat,
      ((l.foldl (syncAccountsStep iid) acc).1).items = acc.1.items := by
  induction l with
  | nil => intro acc; rfl
  | cons a rest ih =>
    intro acc
    rw [List.foldl_cons, ih]
    exact upsertAccount_items iid acc.1 a

theorem syncAccounts_items (env : PlaidEnv) (st : BankDb) (iid : Nat) :
    (syncAccounts env st iid).2.items = st.items := by
  rw [syncAccounts]
  cases h : getPlaidItem st iid with
  | none => rfl
  | some item => exact foldl_syncAccountsStep_items item.id _ (st, 0, 0)

theorem linkAccount_new (env : PlaidEnv) (st : BankDb) (u : Nat)
    (pt a X : String) (hx : env.exchange pt = (a, X))
    (hnone : getPlaidItemByItemId st X = none) :
    (linkAccount env st u pt).2.items = st.items ++
      [⟨st.nextId, u, X, a, linkInstId env a, linkInstName env a, true, none⟩] ∧
    (linkAccount env st u pt).1 =
      ⟨true, "Account linked successfully", some st.nextId⟩ := by
  constructor
  · simp [linkAccount, hx, hnone, syncAccounts_items]
  · simp [linkAccount, hx, hnone]

/-- C7: when two `link_account` calls exchange public tokens resolving to
the same rail item id, starting from a state with no item of that rail id,
exactly one PlaidItem row with that rail id exists afterwards: the second
call leaves the state entirely unchanged and returns success false with the
already-linked message instead of raising. -/
theorem C7_link_account_idempotent (env : PlaidEnv) (st0 : BankDb)
    (u1 u2 : Nat) (t1 t2 a1 a2 X : String)
    (h1 : env.exchange t1 = (a1, X)) (h2 : env.exchange t2 = (a2, X))
    (h0 : st0.items.filter (fun i => i.itemId == X) = []) :
    ((linkAccount env (linkAccount env st0 u1 t1).2 u2 t2).2.items.filter
        (fun i => i.itemId == X)).length = 1 ∧
    (linkAccount env (linkAccount env st0 u1 t1).2 u2 t2).1.success = false ∧
    (linkAccount env (linkAccount env st0 u1 t1).2 u2 t2).1.message =
      "This account is already linked" ∧
    (linkAccount env (linkAccount env st0 u1 t1).2 u2 t2).2 =
      (linkAccount env st0 u1 t1).2 := by
  have hnone : getPlaidItemByItemId st0 X = none := by
    rw [getPlaidItemByItemId, List.find?_eq_none]
    exact List.filter_eq_nil_iff.mp h0
  have hn0 : List.find? (fun i : ItemRow => i.itemId == X) st0.items = none := hnone
  obtain ⟨hitems1, _⟩ := linkAccount_new env st0 u1 t1 a1 X h1 hnone
  set st1 := (linkAccount env st0 u1 t1).2 with hst1
  have hfind1 : getPlaidItemByItemId st1 X =
      some ⟨st0.nextId, u1, X, a1, linkInstId env a1, linkInstName env a1,
            true, none⟩ := by
    rw [getPlaidItemByItemId, hitems1, List.find?_append, hn0]
    simp [List.find?]
  have hsecond : linkAccount env st1 u2 t2 =
      (⟨false, "This account is already linked", some st0.nextId⟩, st1) := by
    simp [linkAccount, h2, hfind1]
  rw [hsecond]
  refine ⟨?_, rfl, rfl, rfl⟩
  rw [hitems1, List.filter_append, h0]
  simp

/-- Witness for C7: a fresh state, an environment whose exchange resolves
every token to item id itm_1; the second link is rejected as already linked
and one item row with that rail id exists. -/
theorem C7_link_account_witness :
    ((linkAccount ⟨fun _ => ("tok", "itm_1"), fun _ => [], fun _ => none, fun _ => []⟩
        (linkAccount ⟨fun _ => ("tok", "itm_1"), fun _ => [], fun _ => none, fun _ => []⟩
          ⟨[], [], [], 0⟩ 7 "public-token-a").2 8 "public-token-b").2.items.filter
        (fun i => i.itemId == "itm_1")).length = 1 ∧
    (linkAccount ⟨fun _ => ("tok", "itm_1"), fun _ => [], fun _ => none, fun _ => []⟩
        (linkAccount ⟨fun _ => ("tok", "itm_1"), fun _ => [], fun _ => none, fun _ => []⟩
          ⟨[], [], [], 0⟩ 7 "public-token-a").2 8 "public-token-b").1.success = false ∧
    (linkAccount ⟨fun _ => ("tok", "itm_1"), fun _ => [], fun _ => none, fun _ => []⟩
        (linkAccount ⟨fun _ => ("tok", "itm_1"), fun _ => [], fun _ => none, fun _ => []⟩
          ⟨[], [], [], 0⟩ 7 "public-token-a").2 8 "public-token-b").1.message =
      "This account is already linked" := by
  have h := C7_link_account_idempotent
    ⟨fun _ => ("tok", "itm_1"), fun _ => [], fun _ => none, fun _ => []⟩
    ⟨[], [], [], 0⟩ 7 8 "public-token-a" "public-token-b" "tok" "tok" "itm_1"
    rfl rfl rfl
  exact ⟨h.1, h.2.1, h.2.2.1⟩

/-! ## Claim theorem: sync_transactions (C8) -/

/-- C8 (code bug): for any existing item with at least one local account,
`sync_transactions` never reaches the fetch-and-upsert loop: computing the
date window evaluates `datetime.timedelta` on the datetime class (the module
imports only the class), the AttributeError is swallowed by the blanket
handler, and the call returns success false with the error message, leaving
the state untouched — the spec's skip-unresolvable-and-continue behaviour is
dead code. -/
theorem C8_sync_transactions_never_succeeds (env : PlaidEnv) (st : BankDb)
    (iid nowDay days : Nat) (item : ItemRow)
    (hitem : getPlaidItem st iid = some item)
    (haccts : (getItemAccounts st item.id).isEmpty = false) :
    syncTransactions env st iid nowDay days =
      (⟨false, "Error syncing transactions: " ++
          pyErrStr (.attributeError "datetime.datetime" "timedelta"), 0, 0⟩, st) := by
  have hattr : "timedelta" ∉ datetimeClassAttributeNames := by decide
  simp [syncTransactions, hitem, haccts, computeStartDate, hattr]

/-- Witness for C8: one linked item with one synced account; the transaction
sync fails with the AttributeError message and changes nothing. -/
theorem C8_sync_transactions_witness :
    syncTransactions ⟨fun _ => ("", ""), fun _ => [], fun _ => none, fun _ => []⟩
      ⟨[⟨1, 7, "itm_1", "tok", none, none, true, none⟩],
       [⟨2, 1, "acc_1", none, none, none, true⟩], [], 3⟩ 1 20000 30 =
      (⟨false, "Error syncing transactions: " ++
          pyErrStr (.attributeError "datetime.datetime" "timedelta"), 0, 0⟩,
       ⟨[⟨1, 7, "itm_1", "tok", none, none, true, none⟩],
        [⟨2, 1, "acc_1", none, none, none, true⟩], [], 3⟩) :=
  C8_sync_transactions_never_succeeds _ _ 1 20000 30
    ⟨1, 7, "itm_1", "tok", none, none, true, none⟩ (by decide) (by decide)

end Fintech
